import Mathlib

/-!
Shallow embedding of the workflow controller of `src/App.tsx` (the `App`
component of the Logo Generator repository).

The component's mutable session state (`useState` hooks) becomes the
structure `AppState`.  Each event handler is embedded as a function from the
captured state and the outcomes of its external collaborators (the remote
generation client, the credential provider `window.aistudio`, and the
file-to-base64 utility) to the list of primitive `Step`s it performs, in
program order: every `setXxx` state update is one step, and each outbound
collaborator call is recorded as a (state-identity) step so that claims
about "no remote call" and "busy flag never set" are statements about the
emitted step list, not only about the final state.  `runSteps` folds a step
list over a state to obtain the handler's final state.

JavaScript details that matter are modelled explicitly: `e.message ||
fallback` treats a missing or empty message as falsy (`jsMessageOr`),
`String.prototype.includes` is `jsIncludes`, `Array.prototype.indexOf`
returning -1 is `jsIndexOf`, and `logoToAnimate.split(',')[1]` is
`base64Part` (an `Option`, since the element may be absent).
-/

namespace LogoGen

/-- JS `a || fallback` for an optional string message: a missing or empty
string is falsy, so the fallback is used. Mirrors `e.message || '...'`. -/
def jsMessageOr (m : Option String) (fallback : String) : String :=
  match m with
  | some s => if s.isEmpty then fallback else s
  | none => fallback

/-- JS `!s.trim()`: the trimmed string is empty — i.e. falsy — exactly when
every character of `s` is whitespace.  (JS's WhiteSpace/LineTerminator set
and `Char.isWhitespace` agree on the characters relevant here.) -/
def isBlank (s : String) : Bool :=
  s.toList.all (fun c => c.isWhitespace)

/-- `pat` is a prefix of `s`, on character lists. -/
def charsHavePrefix : List Char → List Char → Bool
  | [], _ => true
  | _ :: _, [] => false
  | a :: pat, b :: s => a == b && charsHavePrefix pat s

/-- `pat` occurs as a contiguous run somewhere in `s`, on character lists. -/
def charsInclude (pat : List Char) : List Char → Bool
  | [] => charsHavePrefix pat []
  | b :: s => charsHavePrefix pat (b :: s) || charsInclude pat s

/-- JS `s.includes(pat)`: substring containment. -/
def jsIncludes (s pat : String) : Bool :=
  charsInclude pat.toList s.toList

/-- JS `arr.indexOf(x)`: index of the first occurrence, `-1` if absent. -/
def jsIndexOf (l : List String) (x : String) : Int :=
  match l.findIdx? (fun y => y == x) with
  | some i => (i : Int)
  | none => -1

/-- The fixed rotating status messages, `videoLoadingMessages` in
`src/App.tsx` lines 29-36. -/
def videoLoadingMessages : List String :=
  [ "Warming up the animation engine...",
    "Teaching the pixels to dance...",
    "Composing a symphony of light and motion...",
    "This can take a few minutes, please be patient...",
    "Rendering the final masterpiece...",
    "Almost there, adding the final sparkle..." ]

/-- The interval period, in milliseconds, of the `setInterval` call in the
video-message effect (`src/App.tsx` line 67). -/
def videoMessageIntervalMs : Nat := 4000

/-- The `setInterval` callback body (`src/App.tsx` lines 62-66): advance the
displayed message to the next one in `videoLoadingMessages`, with
wrap-around. -/
def nextVideoLoadingMessage (prev : String) : String :=
  let currentIndex := jsIndexOf videoLoadingMessages prev
  let nextIndex := (currentIndex + 1) % (videoLoadingMessages.length : Int)
  (videoLoadingMessages.get? nextIndex.toNat).getD ""

/-- The session state of the `App` component: one field per `useState` hook
(`src/App.tsx` lines 39-53).  `aspectRatio` is a string because the source
type `AspectRatio` is the union of the string literals `'16:9' | '9:16'`. -/
structure AppState where
  logoPrompt : String
  animationPrompt : String
  generatedLogo : Option String
  generatedVideo : Option String
  logoToAnimate : Option String
  isGeneratingLogo : Bool
  isGeneratingVideo : Bool
  error : Option String
  aspectRatio : String
  hasApiKey : Bool
  videoLoadingMessage : String
deriving Repr, DecidableEq

/-- The initial state given by the `useState` initializers. -/
def initState : AppState :=
  { logoPrompt := "A minimalist, geometric fox logo, clean lines, orange and white."
    animationPrompt := "The fox logo winks, and then futuristic digital circuits glow behind it."
    generatedLogo := none
    generatedVideo := none
    logoToAnimate := none
    isGeneratingLogo := false
    isGeneratingVideo := false
    error := none
    aspectRatio := "16:9"
    hasApiKey := false
    videoLoadingMessage := videoLoadingMessages.headD "" }

/-- One primitive action of a handler: a `setXxx` state update, or an
outbound call to an external collaborator (recorded for trace claims;
identity on the state). -/
inductive Step where
  | setLogoPrompt (v : String)
  | setAnimationPrompt (v : String)
  | setGeneratedLogo (v : Option String)
  | setGeneratedVideo (v : Option String)
  | setLogoToAnimate (v : Option String)
  | setIsGeneratingLogo (b : Bool)
  | setIsGeneratingVideo (b : Bool)
  | setError (v : Option String)
  | setAspectRatio (v : String)
  | setHasApiKey (b : Bool)
  | callGenerateImage (prompt : String)
  | callGenerateVideo (prompt : String) (image : Option String) (ratio : String)
  | queryHasSelectedApiKey
  | callOpenSelectKey
  | callFileToBase64
deriving Repr, DecidableEq

/-- Effect of a primitive step on the state.  Collaborator-call steps do not
change the state; they only mark that the call was dispatched. -/
def Step.applyTo (s : AppState) : Step → AppState
  | .setLogoPrompt v => { s with logoPrompt := v }
  | .setAnimationPrompt v => { s with animationPrompt := v }
  | .setGeneratedLogo v => { s with generatedLogo := v }
  | .setGeneratedVideo v => { s with generatedVideo := v }
  | .setLogoToAnimate v => { s with logoToAnimate := v }
  | .setIsGeneratingLogo b => { s with isGeneratingLogo := b }
  | .setIsGeneratingVideo b => { s with isGeneratingVideo := b }
  | .setError v => { s with error := v }
  | .setAspectRatio v => { s with aspectRatio := v }
  | .setHasApiKey b => { s with hasApiKey := b }
  | .callGenerateImage _ => s
  | .callGenerateVideo _ _ _ => s
  | .queryHasSelectedApiKey => s
  | .callOpenSelectKey => s
  | .callFileToBase64 => s

/-- Run a handler's step list from a starting state. -/
def runSteps (steps : List Step) (s : AppState) : AppState :=
  steps.foldl Step.applyTo s

/-- `true` on the step that dispatches the remote image call. -/
def isRemoteImageCall : Step → Bool
  | .callGenerateImage _ => true
  | _ => false

/-- `true` on the step that dispatches the remote video call. -/
def isRemoteVideoCall : Step → Bool
  | .callGenerateVideo _ _ _ => true
  | _ => false

/-- `true` on a step that sets the logo busy flag to `true`. -/
def setsLogoBusy : Step → Bool
  | .setIsGeneratingLogo b => b
  | _ => false

/-- `true` on a step that sets the video busy flag to `true`. -/
def setsVideoBusy : Step → Bool
  | .setIsGeneratingVideo b => b
  | _ => false

/-! ### Message constants of `src/App.tsx` -/

def logoValidationMessage : String := "Please enter a description for your logo."
def fallbackLogoError : String := "Failed to generate logo."
def missingLogoMessage : String := "Please generate or upload a logo to animate."
def animationValidationMessage : String := "Please enter a prompt for the animation."
def selectKeyMessage : String := "Please select an API key to generate videos."
def fallbackVideoError : String := "An unknown error occurred during video generation."
def entityNotFoundSignature : String := "Requested entity was not found"
def invalidKeyMessage : String := "API Key not found or invalid. Please re-select your API key."
def fileReadErrorMessage : String := "Failed to read the uploaded file."
def selectorFailedMessage : String := "Failed to open API key selector. Please try again."

/-! ### Handlers -/

/-- `handleGenerateLogo` (`src/App.tsx` lines 74-96).  `imageResult` is the
outcome of `generateLogoImage(logoPrompt)`: `ok` with the base64 payload, or
`error` with the thrown exception's optional `message`. -/
def handleGenerateLogo (s : AppState)
    (imageResult : Except (Option String) String) : List Step :=
  if isBlank s.logoPrompt then
    [Step.setError (some logoValidationMessage)]
  else
    [Step.setIsGeneratingLogo true, Step.setError none,
     Step.setGeneratedLogo none, Step.setLogoToAnimate none,
     Step.setGeneratedVideo none,
     Step.callGenerateImage s.logoPrompt] ++
    (match imageResult with
     | Except.ok b64 =>
        [Step.setGeneratedLogo (some ("data:image/jpeg;base64," ++ b64)),
         Step.setLogoToAnimate (some ("data:image/jpeg;base64," ++ b64))]
     | Except.error m =>
        [Step.setError (some (jsMessageOr m fallbackLogoError))]) ++
    [Step.setIsGeneratingLogo false]

/-- JS `str.split(sep)` for a single-character separator, on character
lists. -/
def splitChars (sep : Char) : List Char → List (List Char)
  | [] => [[]]
  | c :: cs =>
    let rest := splitChars sep cs
    if c == sep then [] :: rest
    else
      match rest with
      | [] => [[c]]
      | h :: t => (c :: h) :: t

/-- `logoToAnimate.split(',')[1]` (`src/App.tsx` line 122): the second
field of the comma-split data URL, or `none` when there is no comma. -/
def base64Part (dataUrl : String) : Option String :=
  ((splitChars ',' dataUrl.toList).get? 1).map (fun l => String.mk l)

/-- The `catch` block of `handleGenerateVideo` (`src/App.tsx` lines
126-133): compute `errorMessage` with the JS falsy fallback; when it
contains the entity-not-found signature, demote `hasApiKey` and rewrite the
message; finally store the message in `error`. -/
def videoCatchSteps (m : Option String) : List Step :=
  let errorMessage := jsMessageOr m fallbackVideoError
  if jsIncludes errorMessage entityNotFoundSignature then
    [Step.setHasApiKey false, Step.setError (some invalidKeyMessage)]
  else
    [Step.setError (some errorMessage)]

/-- `handleGenerateVideo` (`src/App.tsx` lines 98-137).  `keyQuery` is the
outcome of `window.aistudio.hasSelectedApiKey()` (it may throw, carrying an
optional message); `videoResult` is the outcome of `generateLogoVideo`.
The two validation returns precede the `try`, so they bypass the `finally`;
every path inside the `try` ends with the `finally`'s
`setIsGeneratingVideo(false)`. -/
def handleGenerateVideo (s : AppState)
    (keyQuery : Except (Option String) Bool)
    (videoResult : Except (Option String) String) : List Step :=
  match s.logoToAnimate with
  | none => [Step.setError (some missingLogoMessage)]
  | some logo =>
    if isBlank s.animationPrompt then
      [Step.setError (some animationValidationMessage)]
    else
      (match keyQuery with
       | Except.error m =>
          Step.queryHasSelectedApiKey :: videoCatchSteps m
       | Except.ok keySelected =>
          [Step.queryHasSelectedApiKey, Step.setHasApiKey keySelected] ++
          (if keySelected then
            [Step.setIsGeneratingVideo true, Step.setError none,
             Step.setGeneratedVideo none,
             Step.callGenerateVideo s.animationPrompt (base64Part logo) s.aspectRatio] ++
            (match videoResult with
             | Except.ok url => [Step.setGeneratedVideo (some url)]
             | Except.error m => videoCatchSteps m)
          else
            [Step.setError (some selectKeyMessage)]))
      ++ [Step.setIsGeneratingVideo false]

/-- `handleFileChange` (`src/App.tsx` lines 139-152).  `filePresent` is
whether `event.target.files?.[0]` yielded a file; `readResult` is the
outcome of `fileToBase64(file)`.  `setError(null)` runs before the read, so
it is performed on the failure path too, before the failure message is
stored. -/
def handleFileChange (filePresent : Bool)
    (readResult : Except Unit String) : List Step :=
  if filePresent then
    [Step.setError none, Step.callFileToBase64] ++
    (match readResult with
     | Except.ok b64 => [Step.setLogoToAnimate (some b64), Step.setGeneratedVideo none]
     | Except.error _ => [Step.setError (some fileReadErrorMessage)])
  else []

/-- `checkApiKey` (`src/App.tsx` lines 154-161): query the credential
provider; on a throw, only log (prior `hasApiKey` kept). -/
def checkApiKey (keyQuery : Except Unit Bool) : List Step :=
  Step.queryHasSelectedApiKey ::
  (match keyQuery with
   | Except.ok b => [Step.setHasApiKey b]
   | Except.error _ => [])

/-- `handleSelectKey` (`src/App.tsx` lines 167-177): open the selector; on
success optimistically set `hasApiKey` and clear `error`; on a throw set a
fixed error message. -/
def handleSelectKey (openResult : Except Unit Unit) : List Step :=
  Step.callOpenSelectKey ::
  (match openResult with
   | Except.ok _ => [Step.setHasApiKey true, Step.setError none]
   | Except.error _ => [Step.setError (some selectorFailedMessage)])

/-- The `onChange` of the animation-prompt textarea (`src/App.tsx` lines
255-261): it only stores the new text. -/
def animationPromptOnChange (v : String) : List Step :=
  [Step.setAnimationPrompt v]

/-- The `onChange` of the logo-prompt textarea (`src/App.tsx` line 210). -/
def logoPromptOnChange (v : String) : List Step :=
  [Step.setLogoPrompt v]

/-! ### The controller as a transition system

Each user-visible operation runs to completion as one atomic transition
(the single-threaded event loop interleaves no second handler of the same
kind; awaited collaborator outcomes are the event's parameters). -/

/-- One completed operation of the controller, with the outcomes of the
external collaborators it consulted. -/
inductive Event where
  | genLogo (imageResult : Except (Option String) String)
  | genVideo (keyQuery : Except (Option String) Bool)
      (videoResult : Except (Option String) String)
  | fileChange (filePresent : Bool) (readResult : Except Unit String)
  | editLogoPrompt (v : String)
  | editAnimationPrompt (v : String)
  | pickAspect (v : String)
  | keyCheck (q : Except Unit Bool)
  | keySelect (r : Except Unit Unit)
deriving Repr

/-- The step list an event's handler emits from state `s`. -/
def eventSteps (s : AppState) : Event → List Step
  | .genLogo r => handleGenerateLogo s r
  | .genVideo k v => handleGenerateVideo s k v
  | .fileChange p r => handleFileChange p r
  | .editLogoPrompt v => logoPromptOnChange v
  | .editAnimationPrompt v => animationPromptOnChange v
  | .pickAspect v => [Step.setAspectRatio v]
  | .keyCheck q => checkApiKey q
  | .keySelect r => handleSelectKey r

/-- Final state after one completed operation. -/
def runEvent (s : AppState) (e : Event) : AppState :=
  runSteps (eventSteps s e) s

/-- Final state after a sequence of completed operations, from the initial
state. -/
def runEvents (evs : List Event) : AppState :=
  evs.foldl runEvent initState

/-- Ghost history for provenance: the `logoToAnimate` value that the last
successful `handleGenerateVideo` dispatched to the remote video call
(`none` while no successful call has yet occurred).  An event is a
successful call exactly when it passes both validations, the credential
re-query answers `true`, and the remote call resolves.  The instrumentation
only observes the run; it changes no component state. -/
def recordVideoInput (s : AppState) (g : Option (Option String)) :
    Event → Option (Option String)
  | Event.genVideo (Except.ok true) (Except.ok _) =>
      match s.logoToAnimate with
      | some _ => if isBlank s.animationPrompt then g else some s.logoToAnimate
      | none => g
  | _ => g

/-- One completed operation together with its ghost-history update. -/
def stepWithInput (p : AppState × Option (Option String)) (e : Event) :
    AppState × Option (Option String) :=
  (runEvent p.1 e, recordVideoInput p.1 p.2 e)

/-- Instrumented run from the initial state: the component state of
`runEvents` paired with the recorded input of the last successful video
generation. -/
def runEventsWithInput (evs : List Event) : AppState × Option (Option String) :=
  evs.foldl stepWithInput (initState, none)

/-! ### The rotating video-message effect

The `useEffect` at `src/App.tsx` lines 57-72 installs a `setInterval` when
`isGeneratingVideo` becomes `true` and its cleanup (run when the flag
changes back or the component unmounts) clears it, so a tick of the
interval callback can only happen while `isGeneratingVideo` is `true`.
Real-time spacing of ticks (`videoMessageIntervalMs`) is outside the model;
only their order relative to the flag transitions is kept. -/

/-- The part of the component state the effect interacts with: the video
busy flag (which gates the interval) and the displayed message. -/
structure VideoMessageState where
  generating : Bool
  message : String
deriving Repr, DecidableEq

/-- Discrete events of the effect's lifetime: the busy flag turning on
(effect body installs the interval), turning off (cleanup clears it), and a
firing of the interval callback. -/
inductive TimerEvent where
  | start
  | stop
  | tick
deriving Repr, DecidableEq

/-- Transition of the video-message subsystem.  A `tick` advances the
message via the `setInterval` callback only while `generating` is `true`;
after `stop` the interval has been cleared, so a tick changes nothing. -/
def timerStep (s : VideoMessageState) : TimerEvent → VideoMessageState
  | .start => { s with generating := true }
  | .stop => { s with generating := false }
  | .tick =>
      if s.generating then { s with message := nextVideoLoadingMessage s.message }
      else s

/-- Initial subsystem state: not generating, message initialized to
`videoLoadingMessages[0]` (`src/App.tsx` line 53). -/
def initVideoMessageState : VideoMessageState :=
  { generating := false, message := videoLoadingMessages.headD "" }

/-- Run the subsystem from its initial state. -/
def runTimer (evs : List TimerEvent) : VideoMessageState :=
  evs.foldl timerStep initVideoMessageState

/-! ### Claims -/

/-- A session state with a previously generated video, used to exhibit that
editing the animation prompt does not clear `generatedVideo`. -/
def c1State : AppState :=
  { initState with
      logoToAnimate := some "data:image/png;base64,LOGO"
      generatedVideo := some "blob:video-1" }

/-- C1 (counterexample): editing `animationPrompt` (the textarea `onChange`,
which only calls `setAnimationPrompt`) changes the animation input pairing
but does NOT clear `generatedVideo`, contradicting the claimed invariant. -/
theorem C1_counterexample :
    (runSteps (animationPromptOnChange "a new animation idea") c1State).generatedVideo
        = some "blob:video-1" ∧
    (runSteps (animationPromptOnChange "a new animation idea") c1State).animationPrompt
        ≠ c1State.animationPrompt := by
  constructor
  · rfl
  · decide

/-- The component state of the instrumented run is the plain run: the ghost
history observes without interfering. -/
theorem runEventsWithInput_fst (evs : List Event) :
    ∀ (s : AppState) (g : Option (Option String)),
      (evs.foldl stepWithInput (s, g)).1 = evs.foldl runEvent s := by
  induction evs with
  | nil => intro s g; rfl
  | cons e t ih =>
      intro s g
      simp only [List.foldl_cons, stepWithInput]
      exact ih (runEvent s e) (recordVideoInput s g e)

/-- One completed operation preserves the provenance invariant: whenever a
video is present afterwards, the recorded input of the last successful
video generation is the then-current `logoToAnimate`. -/
theorem recordVideoInput_preserves (s : AppState) (g : Option (Option String)) (e : Event)
    (h : ∀ u, s.generatedVideo = some u → g = some s.logoToAnimate) :
    ∀ u, (runEvent s e).generatedVideo = some u →
      recordVideoInput s g e = some (runEvent s e).logoToAnimate := by
  cases e with
  | genLogo r =>
      by_cases hB : isBlank s.logoPrompt <;> cases r <;>
        simp_all [runEvent, eventSteps, handleGenerateLogo, runSteps, Step.applyTo,
          recordVideoInput]
  | genVideo k v =>
      cases hL : s.logoToAnimate with
      | none =>
          cases k with
          | error m =>
              simp_all [runEvent, eventSteps, handleGenerateVideo, runSteps, Step.applyTo,
                recordVideoInput]
          | ok b =>
              cases b <;> cases v <;>
                simp_all [runEvent, eventSteps, handleGenerateVideo, runSteps, Step.applyTo,
                  recordVideoInput]
      | some logo =>
          by_cases hP : isBlank s.animationPrompt
          · cases k with
            | error m =>
                simp_all [runEvent, eventSteps, handleGenerateVideo, runSteps, Step.applyTo,
                  recordVideoInput]
            | ok b =>
                cases b <;> cases v <;>
                  simp_all [runEvent, eventSteps, handleGenerateVideo, runSteps, Step.applyTo,
                    recordVideoInput]
          · cases k with
            | error m =>
                by_cases hI : jsIncludes (jsMessageOr m fallbackVideoError) entityNotFoundSignature <;>
                  simp_all [runEvent, eventSteps, handleGenerateVideo, videoCatchSteps,
                    runSteps, Step.applyTo, recordVideoInput]
            | ok b =>
                cases b with
                | false =>
                    simp_all [runEvent, eventSteps, handleGenerateVideo, runSteps, Step.applyTo,
                      recordVideoInput]
                | true =>
                    cases v with
                    | ok u =>
                        simp_all [runEvent, eventSteps, handleGenerateVideo, runSteps,
                          Step.applyTo, recordVideoInput]
                    | error m =>
                        by_cases hI : jsIncludes (jsMessageOr m fallbackVideoError) entityNotFoundSignature <;>
                          simp_all [runEvent, eventSteps, handleGenerateVideo, videoCatchSteps,
                            runSteps, Step.applyTo, recordVideoInput]
  | fileChange p r =>
      cases p <;> cases r <;>
        simp_all [runEvent, eventSteps, handleFileChange, runSteps, Step.applyTo,
          recordVideoInput]
  | editLogoPrompt v =>
      simp_all [runEvent, eventSteps, logoPromptOnChange, runSteps, Step.applyTo,
        recordVideoInput]
  | editAnimationPrompt v =>
      simp_all [runEvent, eventSteps, animationPromptOnChange, runSteps, Step.applyTo,
        recordVideoInput]
  | pickAspect v =>
      simp_all [runEvent, eventSteps, runSteps, Step.applyTo, recordVideoInput]
  | keyCheck q =>
      cases q <;>
        simp_all [runEvent, eventSteps, checkApiKey, runSteps, Step.applyTo, recordVideoInput]
  | keySelect r =>
      cases r <;>
        simp_all [runEvent, eventSteps, handleSelectKey, runSteps, Step.applyTo, recordVideoInput]

/-- The provenance invariant propagated along a whole instrumented run. -/
theorem runEventsWithInput_inv (evs : List Event) :
    ∀ (s : AppState) (g : Option (Option String)),
      (∀ u, s.generatedVideo = some u → g = some s.logoToAnimate) →
      ∀ u, (evs.foldl stepWithInput (s, g)).1.generatedVideo = some u →
        (evs.foldl stepWithInput (s, g)).2
          = some ((evs.foldl stepWithInput (s, g)).1.logoToAnimate) := by
  induction evs with
  | nil => intro s g h; simpa using h
  | cons e t ih =>
      intro s g h
      simp only [List.foldl_cons, stepWithInput]
      exact ih (runEvent s e) (recordVideoInput s g e) (recordVideoInput_preserves s g e h)

/-- A state ready for video generation: animation input present, non-blank
animation prompt, credential flag currently `true`, and a stale video
reference still stored. -/
def readyState : AppState :=
  { initState with
      logoToAnimate := some "data:image/png;base64,AAAA"
      animationPrompt := "The logo spins."
      hasApiKey := true
      generatedVideo := some "blob:old-video" }

/-- A concrete run that uploads an animation input and then generates a
video from it successfully. -/
def c1Trace : List Event :=
  [Event.fileChange true (Except.ok "data:image/png;base64,AAAA"),
   Event.genVideo (Except.ok true) (Except.ok "blob:v1")]

/-- C1 (amended): `generatedVideo` is non-null in a reachable state only if
the animation input from which the last successful `handleGenerateVideo`
produced it is still the current `logoToAnimate`; the operations that
change the animation input image clear `generatedVideo` — every
`handleGenerateLogo` run past validation, every successful
`handleFileChange`, and the start of a `handleGenerateVideo` dispatch
(before the remote call) — but an edit of `animationPrompt` leaves
`generatedVideo` unchanged. -/
theorem C1_video_clearing (s : AppState) (r : Except (Option String) String)
    (b v logo : String) (vr : Except (Option String) String) (evs : List Event)
    (h : isBlank s.logoPrompt = false)
    (hLogo : s.logoToAnimate = some logo)
    (hPrompt : isBlank s.animationPrompt = false) :
    (∀ u, (runEvents evs).generatedVideo = some u →
        (runEventsWithInput evs).2 = some ((runEvents evs).logoToAnimate)) ∧
    (runSteps (handleGenerateLogo s r) s).generatedVideo = none ∧
    (runSteps (handleFileChange true (Except.ok b)) s).generatedVideo = none ∧
    (handleGenerateVideo s (Except.ok true) vr).take 6
        = [Step.queryHasSelectedApiKey, Step.setHasApiKey true,
           Step.setIsGeneratingVideo true, Step.setError none, Step.setGeneratedVideo none,
           Step.callGenerateVideo s.animationPrompt (base64Part logo) s.aspectRatio] ∧
    (runSteps (animationPromptOnChange v) s).generatedVideo = s.generatedVideo := by
  refine ⟨?_, ?_, ?_, ?_, ?_⟩
  · intro u hu
    have hfst := runEventsWithInput_fst evs initState none
    have hinv := runEventsWithInput_inv evs initState none (by simp [initState])
    have hu' : (evs.foldl stepWithInput (initState, none)).1.generatedVideo = some u := by
      rw [hfst]; exact hu
    show (evs.foldl stepWithInput (initState, none)).2 = some ((runEvents evs).logoToAnimate)
    rw [show runEvents evs = evs.foldl runEvent initState from rfl, ← hfst]
    exact hinv u hu'
  · cases r <;> simp [handleGenerateLogo, h, runSteps, Step.applyTo]
  · simp [handleFileChange, runSteps, Step.applyTo]
  · cases vr <;> simp [handleGenerateVideo, hLogo, hPrompt]
  · rfl

/-- C1 witness: the amended statement exercised concretely — a run whose
video was produced from the uploaded input satisfies the provenance
invariant, and a logo generation from `readyState` clears the stale
video. -/
theorem C1_video_clearing_witness :
    isBlank readyState.logoPrompt = false ∧
    readyState.logoToAnimate = some "data:image/png;base64,AAAA" ∧
    isBlank readyState.animationPrompt = false ∧
    (runEvents c1Trace).generatedVideo = some "blob:v1" ∧
    (runEventsWithInput c1Trace).2 = some ((runEvents c1Trace).logoToAnimate) ∧
    (runSteps (handleGenerateLogo readyState (Except.ok "IMG")) readyState).generatedVideo
        = none :=
  ⟨by decide, rfl, by decide, by decide,
    (C1_video_clearing readyState (Except.ok "IMG") "b" "v" "data:image/png;base64,AAAA"
        (Except.ok "u") c1Trace (by decide) rfl (by decide)).1 "blob:v1" (by decide),
    (C1_video_clearing readyState (Except.ok "IMG") "b" "v" "data:image/png;base64,AAAA"
        (Except.ok "u") c1Trace (by decide) rfl (by decide)).2.1⟩

/-- C5: for a prompt that is blank after trimming, `handleGenerateLogo`
emits only the validation-error write: the final state differs from the
initial one only in the `error` slot (in particular `generatedLogo` and
`isGeneratingLogo` are untouched), no remote image call is dispatched, and
the busy flag is never set. -/
theorem C5_blank_prompt_validation (s : AppState) (r : Except (Option String) String)
    (h : isBlank s.logoPrompt = true) :
    handleGenerateLogo s r = [Step.setError (some logoValidationMessage)] ∧
    runSteps (handleGenerateLogo s r) s = { s with error := some logoValidationMessage } ∧
    (runSteps (handleGenerateLogo s r) s).generatedLogo = s.generatedLogo ∧
    (runSteps (handleGenerateLogo s r) s).isGeneratingLogo = s.isGeneratingLogo ∧
    ((handleGenerateLogo s r).any isRemoteImageCall) = false ∧
    ((handleGenerateLogo s r).any setsLogoBusy) = false := by
  simp [handleGenerateLogo, h, runSteps, Step.applyTo, isRemoteImageCall, setsLogoBusy]

/-- A state whose logo prompt is whitespace-only. -/
def c5State : AppState := { initState with logoPrompt := "   " }

/-- C5 witness: the validation path at a concrete blank prompt. -/
theorem C5_blank_prompt_validation_witness :
    isBlank c5State.logoPrompt = true ∧
    handleGenerateLogo c5State (Except.ok "IMG") = [Step.setError (some logoValidationMessage)] :=
  ⟨by decide, (C5_blank_prompt_validation c5State (Except.ok "IMG") (by decide)).1⟩

/-- C6: after a successful `handleGenerateLogo`, the data URL built from the
returned payload is stored as both `generatedLogo` and `logoToAnimate`,
`generatedVideo` is cleared, `error` is cleared, and the busy flag is
cleared. -/
theorem C6_logo_success (s : AppState) (b64 : String)
    (h : isBlank s.logoPrompt = false) :
    (runSteps (handleGenerateLogo s (Except.ok b64)) s).generatedLogo
        = some ("data:image/jpeg;base64," ++ b64) ∧
    (runSteps (handleGenerateLogo s (Except.ok b64)) s).logoToAnimate
        = (runSteps (handleGenerateLogo s (Except.ok b64)) s).generatedLogo ∧
    (runSteps (handleGenerateLogo s (Except.ok b64)) s).generatedVideo = none ∧
    (runSteps (handleGenerateLogo s (Except.ok b64)) s).error = none ∧
    (runSteps (handleGenerateLogo s (Except.ok b64)) s).isGeneratingLogo = false := by
  simp [handleGenerateLogo, h, runSteps, Step.applyTo]

/-- C6 witness: a successful logo generation from the initial state. -/
theorem C6_logo_success_witness :
    isBlank initState.logoPrompt = false ∧
    (runSteps (handleGenerateLogo initState (Except.ok "IMG")) initState).generatedLogo
        = some ("data:image/jpeg;base64," ++ "IMG") :=
  ⟨by decide, (C6_logo_success initState "IMG" (by decide)).1⟩

/-- C7: a successful `handleFileChange` overwrites `logoToAnimate` with the
encoded file, clears `generatedVideo` whatever its prior value, and clears
`error`; on a file-read failure, `error` is set to the fixed message. -/
theorem C7_replace_animation_input (s : AppState) (b64 : String) :
    (runSteps (handleFileChange true (Except.ok b64)) s).logoToAnimate = some b64 ∧
    (runSteps (handleFileChange true (Except.ok b64)) s).generatedVideo = none ∧
    (runSteps (handleFileChange true (Except.ok b64)) s).error = none ∧
    (runSteps (handleFileChange true (Except.error ())) s).error = some fileReadErrorMessage := by
  simp [handleFileChange, runSteps, Step.applyTo]

/-- C3: when the pre-dispatch credential re-query reports `false`,
`handleGenerateVideo` dispatches no remote video call, never sets the video
busy flag to `true`, re-queries the provider, and fails with the
credential-missing message — whatever `hasApiKey` was before the call. -/
theorem C3_no_dispatch_without_credential (s : AppState) (logo : String)
    (vr : Except (Option String) String)
    (hLogo : s.logoToAnimate = some logo)
    (hPrompt : isBlank s.animationPrompt = false) :
    Step.queryHasSelectedApiKey ∈ handleGenerateVideo s (Except.ok false) vr ∧
    ((handleGenerateVideo s (Except.ok false) vr).any isRemoteVideoCall) = false ∧
    ((handleGenerateVideo s (Except.ok false) vr).any setsVideoBusy) = false ∧
    (runSteps (handleGenerateVideo s (Except.ok false) vr) s).error = some selectKeyMessage := by
  simp [handleGenerateVideo, hLogo, hPrompt, runSteps, Step.applyTo,
    isRemoteVideoCall, setsVideoBusy]

/-- C3 witness: the credential-missing path from a state whose `hasApiKey`
was `true` before the call. -/
theorem C3_no_dispatch_without_credential_witness :
    readyState.logoToAnimate = some "data:image/png;base64,AAAA" ∧
    isBlank readyState.animationPrompt = false ∧
    readyState.hasApiKey = true ∧
    ((handleGenerateVideo readyState (Except.ok false) (Except.ok "u")).any isRemoteVideoCall)
        = false :=
  ⟨rfl, by decide, rfl,
    (C3_no_dispatch_without_credential readyState "data:image/png;base64,AAAA"
      (Except.ok "u") rfl (by decide)).2.1⟩

/-- C4: a remote video failure whose (fallback-resolved) message contains
the entity-not-found signature is reclassified: `hasApiKey` is demoted to
`false` and `error` becomes the fixed re-selection instruction, even though
the call started with the provider reporting `true`; any other failure
message is stored verbatim (the generic fallback standing in for an absent
or empty message). -/
theorem C4_entity_not_found_reclassified (s : AppState) (logo : String)
    (m : Option String)
    (hLogo : s.logoToAnimate = some logo)
    (hPrompt : isBlank s.animationPrompt = false) :
    (jsIncludes (jsMessageOr m fallbackVideoError) entityNotFoundSignature = true →
      (runSteps (handleGenerateVideo s (Except.ok true) (Except.error m)) s).hasApiKey = false ∧
      (runSteps (handleGenerateVideo s (Except.ok true) (Except.error m)) s).error
          = some invalidKeyMessage) ∧
    (jsIncludes (jsMessageOr m fallbackVideoError) entityNotFoundSignature = false →
      (runSteps (handleGenerateVideo s (Except.ok true) (Except.error m)) s).error
          = some (jsMessageOr m fallbackVideoError)) := by
  constructor <;> intro h <;>
    simp [handleGenerateVideo, hLogo, hPrompt, videoCatchSteps, h, runSteps, Step.applyTo]

/-- C4 witness: the reclassification at a concrete failure message carrying
the signature, starting from `hasApiKey = true`. -/
theorem C4_entity_not_found_reclassified_witness :
    readyState.hasApiKey = true ∧
    jsIncludes (jsMessageOr (some "Requested entity was not found") fallbackVideoError)
        entityNotFoundSignature = true ∧
    (runSteps (handleGenerateVideo readyState (Except.ok true)
        (Except.error (some "Requested entity was not found"))) readyState).hasApiKey = false :=
  ⟨rfl, by decide,
    ((C4_entity_not_found_reclassified readyState "data:image/png;base64,AAAA"
        (some "Requested entity was not found") rfl (by decide)).1 (by decide)).1⟩

/-- C9: the pre-dispatch re-check stores the provider's answer in
`hasApiKey` itself; in particular, when the provider reports `false` the
flag is demoted to `false` (not merely an error raised). -/
theorem C9_recheck_updates_flag (s : AppState) (logo : String) (b : Bool)
    (vr : Except (Option String) String)
    (hLogo : s.logoToAnimate = some logo)
    (hPrompt : isBlank s.animationPrompt = false) :
    Step.setHasApiKey b ∈ handleGenerateVideo s (Except.ok b) vr ∧
    (b = false →
      (runSteps (handleGenerateVideo s (Except.ok b) vr) s).hasApiKey = false ∧
      (runSteps (handleGenerateVideo s (Except.ok b) vr) s).error = some selectKeyMessage) := by
  cases b with
  | false =>
      simp [handleGenerateVideo, hLogo, hPrompt, runSteps, Step.applyTo]
  | true =>
      refine ⟨?_, by simp⟩
      cases vr <;>
        simp [handleGenerateVideo, hLogo, hPrompt, videoCatchSteps, runSteps, Step.applyTo]

/-- C9 witness: the provider answering `false` from a previously-`true`
state demotes the stored flag. -/
theorem C9_recheck_updates_flag_witness :
    readyState.hasApiKey = true ∧
    (runSteps (handleGenerateVideo readyState (Except.ok false) (Except.ok "u")) readyState).hasApiKey
        = false :=
  ⟨rfl,
    ((C9_recheck_updates_flag readyState "data:image/png;base64,AAAA" false
        (Except.ok "u") rfl (by decide)).2 rfl).1⟩

/-- C10 (counterexample): when the credential provider query itself throws
with a message containing the entity-not-found signature, the error slot
receives the rewritten re-selection instruction, not the thrown message —
so the operation does not always surface the thrown message. -/
theorem C10_counterexample :
    (runSteps (handleGenerateVideo readyState
        (Except.error (some "Requested entity was not found"))
        (Except.ok "u")) readyState).error = some invalidKeyMessage ∧
    invalidKeyMessage ≠ "Requested entity was not found" := by
  decide

/-- C10 (amended): if the provider query inside `handleGenerateVideo`
throws, no remote video call is dispatched, the busy flag is never set to
`true`, and `generatedVideo` is left unchanged; the thrown message is
surfaced through the error slot (with the generic fallback for an absent or
empty message) unless it contains the entity-not-found signature, in which
case the message is rewritten to the re-selection instruction and
`hasApiKey` is demoted to `false`. -/
theorem C10_provider_throw (s : AppState) (logo : String) (m : Option String)
    (vr : Except (Option String) String)
    (hLogo : s.logoToAnimate = some logo)
    (hPrompt : isBlank s.animationPrompt = false) :
    ((handleGenerateVideo s (Except.error m) vr).any isRemoteVideoCall) = false ∧
    ((handleGenerateVideo s (Except.error m) vr).any setsVideoBusy) = false ∧
    (runSteps (handleGenerateVideo s (Except.error m) vr) s).generatedVideo
        = s.generatedVideo ∧
    (jsIncludes (jsMessageOr m fallbackVideoError) entityNotFoundSignature = false →
      (runSteps (handleGenerateVideo s (Except.error m) vr) s).error
          = some (jsMessageOr m fallbackVideoError)) ∧
    (jsIncludes (jsMessageOr m fallbackVideoError) entityNotFoundSignature = true →
      (runSteps (handleGenerateVideo s (Except.error m) vr) s).error = some invalidKeyMessage ∧
      (runSteps (handleGenerateVideo s (Except.error m) vr) s).hasApiKey = false) := by
  by_cases h : jsIncludes (jsMessageOr m fallbackVideoError) entityNotFoundSignature <;>
    simp [handleGenerateVideo, hLogo, hPrompt, videoCatchSteps, h, runSteps, Step.applyTo,
      isRemoteVideoCall, setsVideoBusy]

/-- C10 witness: a provider throw with an ordinary message surfaces that
message, makes no remote call, and leaves the stale video in place. -/
theorem C10_provider_throw_witness :
    jsIncludes (jsMessageOr (some "aistudio is offline") fallbackVideoError)
        entityNotFoundSignature = false ∧
    (runSteps (handleGenerateVideo readyState (Except.error (some "aistudio is offline"))
        (Except.ok "u")) readyState).generatedVideo = some "blob:old-video" ∧
    (runSteps (handleGenerateVideo readyState (Except.error (some "aistudio is offline"))
        (Except.ok "u")) readyState).error = some "aistudio is offline" :=
  ⟨by decide,
    (C10_provider_throw readyState "data:image/png;base64,AAAA"
        (some "aistudio is offline") (Except.ok "u") rfl (by decide)).2.2.1,
    (C10_provider_throw readyState "data:image/png;base64,AAAA"
        (some "aistudio is offline") (Except.ok "u") rfl (by decide)).2.2.2.1 (by decide)⟩

/-- Any single completed operation leaves both busy flags `false` whenever
they were `false` when it started: the `finally` blocks of the two
generation handlers release their flag on every path through the `try`, and
every other path leaves the flags untouched. -/
theorem runEvent_preserves_idle (s : AppState) (e : Event)
    (h1 : s.isGeneratingLogo = false) (h2 : s.isGeneratingVideo = false) :
    (runEvent s e).isGeneratingLogo = false ∧ (runEvent s e).isGeneratingVideo = false := by
  cases e with
  | genLogo r =>
      by_cases h : isBlank s.logoPrompt <;> cases r <;>
        simp [runEvent, eventSteps, handleGenerateLogo, h, runSteps, Step.applyTo, h1, h2]
  | genVideo k v =>
      cases hL : s.logoToAnimate with
      | none =>
          simp [runEvent, eventSteps, handleGenerateVideo, hL, runSteps, Step.applyTo, h1, h2]
      | some logo =>
          by_cases hP : isBlank s.animationPrompt
          · simp [runEvent, eventSteps, handleGenerateVideo, hL, hP, runSteps,
              Step.applyTo, h1, h2]
          · cases k with
            | error m =>
                by_cases hI : jsIncludes (jsMessageOr m fallbackVideoError) entityNotFoundSignature <;>
                  simp [runEvent, eventSteps, handleGenerateVideo, hL, hP, videoCatchSteps, hI,
                    runSteps, Step.applyTo, h1, h2]
            | ok b =>
                cases b with
                | false =>
                    simp [runEvent, eventSteps, handleGenerateVideo, hL, hP, runSteps,
                      Step.applyTo, h1, h2]
                | true =>
                    cases v with
                    | ok u =>
                        simp [runEvent, eventSteps, handleGenerateVideo, hL, hP, runSteps,
                          Step.applyTo, h1, h2]
                    | error m =>
                        by_cases hI : jsIncludes (jsMessageOr m fallbackVideoError) entityNotFoundSignature <;>
                          simp [runEvent, eventSteps, handleGenerateVideo, hL, hP, videoCatchSteps,
                            hI, runSteps, Step.applyTo, h1, h2]
  | fileChange p r =>
      cases p <;> cases r <;>
        simp [runEvent, eventSteps, handleFileChange, runSteps, Step.applyTo, h1, h2]
  | editLogoPrompt v =>
      simp [runEvent, eventSteps, logoPromptOnChange, runSteps, Step.applyTo, h1, h2]
  | editAnimationPrompt v =>
      simp [runEvent, eventSteps, animationPromptOnChange, runSteps, Step.applyTo, h1, h2]
  | pickAspect v =>
      simp [runEvent, eventSteps, runSteps, Step.applyTo, h1, h2]
  | keyCheck q =>
      cases q <;> simp [runEvent, eventSteps, checkApiKey, runSteps, Step.applyTo, h1, h2]
  | keySelect r =>
      cases r <;> simp [runEvent, eventSteps, handleSelectKey, runSteps, Step.applyTo, h1, h2]

/-- C2: after every sequence of completed operations — each of
`handleGenerateLogo` and `handleGenerateVideo` with any collaborator
outcome (validation failure, remote success, remote rejection, or a
credential-provider throw) included — both busy flags are `false`: every
operation that raises its flag releases it in its `finally` block. -/
theorem C2_busy_flags_released (evs : List Event) :
    (runEvents evs).isGeneratingLogo = false ∧ (runEvents evs).isGeneratingVideo = false := by
  suffices h : ∀ (l : List Event) (s : AppState),
      s.isGeneratingLogo = false → s.isGeneratingVideo = false →
      (l.foldl runEvent s).isGeneratingLogo = false ∧
      (l.foldl runEvent s).isGeneratingVideo = false by
    exact h evs initState rfl rfl
  intro l
  induction l with
  | nil => exact fun s hs1 hs2 => ⟨hs1, hs2⟩
  | cons e t ih =>
      intro s hs1 hs2
      obtain ⟨h1, h2⟩ := runEvent_preserves_idle s e hs1 hs2
      exact ih (runEvent s e) h1 h2

/-- C8 (counterexample): a second generation does not restart the rotation
at the first message.  After one tick during a first generation, stopping,
and starting a second generation, the displayed message at the moment
generation begins is the second list entry, not the first: nothing ever
resets `videoLoadingMessage` to `videoLoadingMessages[0]`. -/
theorem C8_counterexample :
    (runTimer [TimerEvent.start, TimerEvent.tick, TimerEvent.stop, TimerEvent.start]).generating
        = true ∧
    (runTimer [TimerEvent.start, TimerEvent.tick, TimerEvent.stop, TimerEvent.start]).message
        = "Teaching the pixels to dance..." ∧
    (runTimer [TimerEvent.start, TimerEvent.tick, TimerEvent.stop, TimerEvent.start]).message
        ≠ videoLoadingMessages.headD "" := by
  decide

/-- C8 (amended): each tick while `isGeneratingVideo` is `true` advances the
status message through `videoLoadingMessages` in order with wrap-around;
once the flag is `false` the interval has been cleared and a tick changes
nothing; the message starts at the first list entry only initially (it is
never reset, so a later generation resumes from the last displayed
message); the interval period is the fixed 4000 ms constant. -/
theorem C8_message_rotation :
    (∀ i : Fin videoLoadingMessages.length,
      nextVideoLoadingMessage (videoLoadingMessages.get i)
        = (videoLoadingMessages.get? ((i.val + 1) % videoLoadingMessages.length)).getD "") ∧
    (∀ s : VideoMessageState, s.generating = false → timerStep s TimerEvent.tick = s) ∧
    initVideoMessageState.message = videoLoadingMessages.headD "" ∧
    videoMessageIntervalMs = 4000 := by
  refine ⟨by decide, ?_, rfl, rfl⟩
  intro s h
  simp [timerStep, h]

/-- C8 witness: a tick in a stopped state is a no-op. -/
theorem C8_message_rotation_witness :
    ({ generating := false, message := "Rendering the final masterpiece..." } :
        VideoMessageState).generating = false ∧
    timerStep { generating := false, message := "Rendering the final masterpiece..." }
        TimerEvent.tick
      = { generating := false, message := "Rendering the final masterpiece..." } :=
  ⟨rfl, C8_message_rotation.2.1 _ rfl⟩

end LogoGen
